import Mathlib

/- Verification development for the SleepTk sleep tracker (PineTime / wasp-os).

   Shallow embedding of the two implementations:
   * src/sleep_tk.py  -- the bit-packed-register version (namespace SleepTk)
   * src/SleepTk.py   -- the legacy float-array version (namespace SleepTkLegacy)

   Modelling conventions:
   * the 7-byte `self._states` bytearray is a `List Nat` of length 7 whose
     entries are < 256;
   * Python `~mask` applied to a byte is modelled as `255 ^^^ mask`, which
     agrees with Python's infinite-precision complement whenever the register
     value is < 256 (as bytearray entries always are);
   * floats are modelled as exact rationals where the code only adds,
     subtracts, multiplies and compares them; the transcendental motion
     angle (atan/sin) is modelled over the reals;
   * Python attributes that can be `None` or deleted are `Option` fields;
     reading an absent attribute is a `PyError`;
   * external effects (vibration pulses, alarms, file writes, display and
     power calls) are recorded in an effect list. -/

namespace SleepTk

-- Hard-coded constants of src/sleep_tk.py (lines 62-106).
def HEART_RATE_UNKNOWN : ℕ := 1
def PAGE_SLEEPING : ℕ := 0
def PAGE_RINGING : ℕ := 1
def PAGE_SETTINGS1 : ℕ := 2
def PAGE_SETTINGS2 : ℕ := 3
def STOP_LIMIT : ℕ := 10
def SNOOZE_TIME : ℤ := 180
def FREQ : ℕ := 2
def HR_FREQ : ℤ := 300
def STORE_FREQ : ℕ := 120
def BATTERY_THRESHOLD : ℤ := 20
def NATURAL_WAKE_IVL : ℚ := 60
def NATURAL_WAKE_RAND : ℚ := 30
def CYCLE_LENGTH : ℕ := 95
def SLEEP_GOAL_CYCLE : ℕ := 5

-- Register indices (src/sleep_tk.py lines 110-116).
def IDX_STATE_1 : ℕ := 0
def IDX_STATE_2 : ℕ := 1
def IDX_STATE_3 : ℕ := 2
def IDX_ALARM_HOUR : ℕ := 3
def IDX_ALARM_MIN : ℕ := 4
def IDX_LAST_HR : ℕ := 5
def IDX_LAST_HR_PRINTED : ℕ := 6

-- App state register 1 flags (lines 119-124).
def ALARM_ENABLED : ℕ := 0x01
def MOVEMENT_ENABLED : ℕ := 0x02
def HR_ENABLED : ℕ := 0x04
def GRADUAL_WAKE_ENABLED : ℕ := 0x08
def NAT_WAKE_ENABLED : ℕ := 0x10
def CURRENTLY_TRACKING : ℕ := 0x20

-- App state register 2 fields (lines 127-132).
def PAGE_MASK : ℕ := 0x03
def PAGE_SHIFT : ℕ := 0
def META_STATE_MASK : ℕ := 0x0C
def META_STATE_SHIFT : ℕ := 2
def NUM_VIB_MASK : ℕ := 0xF0
def NUM_VIB_SHIFT : ℕ := 4

-- App state register 3 fields (lines 135-140).
def STOP_TRIAL_MASK : ℕ := 0x0F
def STOP_TRIAL_SHIFT : ℕ := 0
def PREV_BRIGHT_MASK : ℕ := 0x30
def PREV_BRIGHT_SHIFT : ℕ := 4
def PREV_NOTE_MASK : ℕ := 0xC0
def PREV_NOTE_SHIFT : ℕ := 6

/-- Byte-level body of `_get_shifted_int` (src/sleep_tk.py lines 938-939):
`(self._states[register_idx] & bit_mask) >> bit_shift`. -/
def get_shifted_int_byte (reg bit_mask bit_shift : ℕ) : ℕ :=
  (reg &&& bit_mask) >>> bit_shift

/-- Byte-level body of `_set_shifted_int` (src/sleep_tk.py lines 941-942):
`(self._states[register_idx] & bit_mask) | (value << bit_shift)`.
Note the source really ANDs with `bit_mask` (not its complement). -/
def set_shifted_int_byte (reg bit_mask bit_shift value : ℕ) : ℕ :=
  (reg &&& bit_mask) ||| (value <<< bit_shift)

/-- Byte-level body of `_get_bit_flag` (src/sleep_tk.py lines 944-945):
`self._states[register_idx] & bit_mask > 0` (Python parses this as
`(reg & mask) > 0`). -/
def get_bit_flag_byte (reg bit_mask : ℕ) : Bool :=
  decide (0 < reg &&& bit_mask)

/-- Byte-level body of `_set_bit_flag` (src/sleep_tk.py lines 947-951).
`reg & ~bit_mask` on a byte equals `reg &&& (255 ^^^ bit_mask)`. -/
def set_bit_flag_byte (reg bit_mask : ℕ) (new_state : Bool) : ℕ :=
  if new_state then reg ||| bit_mask else reg &&& (255 ^^^ bit_mask)

/-- `_get_shifted_int` on the 7-byte `self._states` bytearray. -/
def get_shifted_int (states : List ℕ) (register_idx bit_mask bit_shift : ℕ) : ℕ :=
  get_shifted_int_byte (states.getD register_idx 0) bit_mask bit_shift

/-- `_set_shifted_int` on the 7-byte `self._states` bytearray. -/
def set_shifted_int (states : List ℕ) (register_idx bit_mask bit_shift value : ℕ) : List ℕ :=
  states.set register_idx (set_shifted_int_byte (states.getD register_idx 0) bit_mask bit_shift value)

/-- `_get_bit_flag` on the 7-byte `self._states` bytearray. -/
def get_bit_flag (states : List ℕ) (register_idx bit_mask : ℕ) : Bool :=
  get_bit_flag_byte (states.getD register_idx 0) bit_mask

/-- `_set_bit_flag` on the 7-byte `self._states` bytearray. -/
def set_bit_flag (states : List ℕ) (register_idx bit_mask : ℕ) (new_state : Bool) : List ℕ :=
  states.set register_idx (set_bit_flag_byte (states.getD register_idx 0) bit_mask new_state)

/-- Python-level runtime failures of the embedded code paths. -/
inductive PyError
  | attributeError (name : String)
  | nameError (name : String)
  | valueError
  | typeError
deriving DecidableEq, Repr

/-- Callback identities used with `wasp.system.set_alarm` / `cancel_alarm`. -/
inductive Callback
  | trackOnce
  | activateTicksToRing
  | startNaturalWake
  | tinyVibration
deriving DecidableEq, Repr

/-- CSV field as written by `_periodicSave`: a number, the `?` placeholder,
or the empty string. -/
inductive CsvField
  | num (v : ℕ)
  | unknown
  | empty
deriving DecidableEq, Repr

/-- One row appended to the sleep log by `_periodicSave`
(src/sleep_tk.py lines 769-775).  `motionBuff` and `nSamples` are the
arguments of the arctangent motion formula; the float written in the file
is `motionValue` of them (defined below over the reals). -/
structure LogRecord where
  timestamp : Option ℤ
  motionBuff : ℚ × ℚ × ℚ
  nSamples : ℕ
  bpm : CsvField
  meta : CsvField
deriving DecidableEq, Repr

/-- External side effects issued by the embedded code paths, in program
order.  Pure display drawing is not recorded. -/
inductive Effect
  | pulse (duty ms : ℤ)
  | setAlarm (t : ℤ) (cb : Callback)
  | cancelAlarm (cb : Callback)
  | requestTick (periodMs : ℕ)
  | wake
  | switchApp
  | keepAwake
  | sysSleep
  | notifyLevel (v : ℕ)
  | brightness (v : ℕ)
  | displayOff
  | accelRead
  | accelReset
  | hrsEnable
  | hrsDisable
  | hrsRead
  | batteryRead
  | notifyLowBattery
  | fileAppend (row : LogRecord)
deriving DecidableEq, Repr

/-- The `self._WU_t` attribute: Python `None`, an integer timestamp, or
deleted (`del self._WU_t`), whose subsequent read raises AttributeError. -/
inductive PyAttr
  | absent
  | pyNone
  | val (t : ℤ)
deriving DecidableEq, Repr

/-- The mutable attributes of `SleepTkApp` (src/sleep_tk.py) that the
verified code paths read or write.  `Option`-typed fields are `none` when
the attribute holds Python `None` or was deleted by `_stop_tracking`.
`nVibration` models `self._n_vibration`, which `tick` reads but which no
method of the class ever assigns, so it is permanently `none`. -/
structure AppState where
  states : List ℕ
  wuT : PyAttr
  wuTOrig : ℤ
  nVibration : Option ℤ
  buff : Option (ℚ × ℚ × ℚ)
  accelMemory : Option (ℚ × ℚ × ℚ)
  dataPointNb : Option ℤ
  latestSave : Option ℤ
  lastCheckpoint : Option ℤ
  trackStartTime : Option ℤ
  nextTrackTime : Option ℤ
  trackHROnce : ℤ
  lastHRDate : ℤ
  lastTouch : ℤ
  hrdataLen : Option ℕ
deriving DecidableEq, Repr

/-- The motion value written to the log (src/sleep_tk.py lines 755-760):
`fac = 2*pi/2000/n*1000`, `motion = atan((bz*fac)/sqrt((bx*fac)^2+(by*fac)^2+1e-5))`. -/
noncomputable def motionValue (b : ℚ × ℚ × ℚ) (n : ℕ) : ℝ :=
  let fac : ℝ := 2 * Real.pi / 2000 / n * 1000
  Real.arctan ((b.2.2 * fac) / Real.sqrt ((b.1 * fac) ^ 2 + (b.2.1 * fac) ^ 2 + 0.00001))

/-- The first CSV field of a flushed record (src/sleep_tk.py lines 761-768):
`timestamp = int((now - track_start_time) / STORE_FREQ)`, written empty
exactly when it is one more than the previously saved value.  Returns the
field (`none` = omitted) and the updated `_latest_save`.  Python's `int()`
truncates toward zero, which is `Int.tdiv` here. -/
def timestamp_field (now track_start_time latest_save : ℤ) : Option ℤ × ℤ :=
  let timestamp : ℤ := Int.tdiv (now - track_start_time) (STORE_FREQ : ℤ)
  if timestamp = latest_save + 1 then (none, timestamp) else (some timestamp, timestamp)

/-- `_periodicSave` (src/sleep_tk.py lines 718-780).  Takes the current
rtc time; returns the new state, the effects, and a runtime error if one
of the session attributes was already cleared.  The status-bar redraw at
the top is a pure display call and is not recorded. -/
def periodicSave (now : ℤ) (s : AppState) : AppState × List Effect × Option PyError :=
  match s.buff, s.dataPointNb, s.lastCheckpoint, s.trackStartTime, s.latestSave with
  | some b, some dpn, some lc, some start, some latest =>
    let n : ℤ := dpn - lc
    let hrOnce := if now - s.trackHROnce > 60 then 0 else s.trackHROnce
    let s1 : AppState := { s with trackHROnce := hrOnce }
    if n ≥ ((STORE_FREQ / FREQ : ℕ) : ℤ) ∧ hrOnce = 0 then
      -- bpm field (lines 744-750); the `== HEART_RATE_UNKNOWN` branch is dead
      -- code as written, because a register holding 1 already takes the first branch
      let lastHR := s1.states.getD IDX_LAST_HR 0
      let bpm := if lastHR ≠ 0 then CsvField.num lastHR
                 else if lastHR = HEART_RATE_UNKNOWN then CsvField.unknown
                 else CsvField.empty
      let states1 := if lastHR ≠ 0 then s1.states.set IDX_LAST_HR 0 else s1.states
      let metaVal := get_shifted_int states1 IDX_STATE_2 META_STATE_MASK META_STATE_SHIFT
      let meta := if metaVal = 0 then CsvField.empty else CsvField.num metaVal
      let ts := timestamp_field now start latest
      let row : LogRecord :=
        { timestamp := ts.1, motionBuff := b, nSamples := n.toNat, bpm := bpm, meta := meta }
      let states2 := set_shifted_int states1 IDX_STATE_2 META_STATE_MASK META_STATE_SHIFT 0
      ({ s1 with states := states2, latestSave := some ts.2,
                 buff := some (0, 0, 0), lastCheckpoint := some dpn },
       [Effect.fileAppend row, Effect.accelReset], none)
    else (s1, [], none)
  | _, _, _, _, _ => (s, [], some PyError.typeError)

/-- The one state mutation done by `_draw` (src/sleep_tk.py lines 525-538):
on the first settings page with the alarm enabled it overwrites the alarm
hour/minute registers with the suggested wake-up time computed from the
current clock reading `(nowH, nowM)`.  The `while M % 5 != 0: M += 1` loop
is the closed-form bump of M to the next multiple of 5. -/
def draw_suggested_alarm (nowH nowM : ℕ) (states : List ℕ) : List ℕ :=
  if get_shifted_int states IDX_STATE_2 PAGE_MASK PAGE_SHIFT = PAGE_SETTINGS1 ∧
      get_bit_flag states IDX_STATE_1 ALARM_ENABLED then
    let goalH := SLEEP_GOAL_CYCLE * CYCLE_LENGTH / 60
    let goalM := SLEEP_GOAL_CYCLE * CYCLE_LENGTH % 60
    let m1 := nowM + goalM
    let m2 := m1 + (5 - m1 % 5) % 5
    let hour := ((nowH + goalH) % 24 + m2 / 60) % 24
    (states.set IDX_ALARM_HOUR hour).set IDX_ALARM_MIN (m2 % 60)
  else states

/-- `_change_page` (src/sleep_tk.py lines 190-194): sets the page field of
register 2 (with the faulty setter) and redraws; `_clean_up_page` and
`_set_up_page` only touch widget objects. -/
def change_page (nowH nowM : ℕ) (s : AppState) (new_page : ℕ) : AppState :=
  let states1 := set_shifted_int s.states IDX_STATE_2 PAGE_MASK PAGE_SHIFT new_page
  { s with states := draw_suggested_alarm nowH nowM states1 }

/-- The state/effect portion of `foreground` (src/sleep_tk.py lines 240-252)
when `self._states` is already allocated: redraw (which may overwrite the
alarm registers) and request the fast tick if sleeping with an HR burst
in flight (`1000 // 8` ms). -/
def foreground_step (nowH nowM : ℕ) (s : AppState) : AppState × List Effect :=
  let states1 := draw_suggested_alarm nowH nowM s.states
  let eff := if get_shifted_int states1 IDX_STATE_2 PAGE_MASK PAGE_SHIFT = PAGE_SLEEPING ∧
                 s.trackHROnce ≠ 0
             then [Effect.requestTick 125] else []
  ({ s with states := states1 }, eff)

/-- `_stop_tracking` (src/sleep_tk.py lines 643-668). -/
def stop_tracking (now : ℤ) (keep_main_alarm : Bool) (s : AppState) :
    AppState × List Effect × Option PyError :=
  let s0 : AppState := { s with states := set_bit_flag s.states IDX_STATE_1 CURRENTLY_TRACKING false }
  let eff1 : List Effect :=
    match s0.nextTrackTime with
    | some t => if t ≠ 0 then [Effect.cancelAlarm Callback.trackOnce] else []
    | none => []
  let eff2 : List Effect :=
    if get_bit_flag s0.states IDX_STATE_1 ALARM_ENABLED ∧ ¬keep_main_alarm then
      [Effect.cancelAlarm Callback.startNaturalWake,
       Effect.cancelAlarm Callback.activateTicksToRing,
       Effect.cancelAlarm Callback.tinyVibration]
    else []
  let ps := periodicSave now s0
  match ps.2.2 with
  | some e => (ps.1, eff1 ++ eff2 ++ [Effect.hrsDisable] ++ ps.2.1, some e)
  | none =>
    ({ ps.1 with buff := none, accelMemory := none, dataPointNb := none,
                 latestSave := none, lastCheckpoint := none, trackStartTime := none,
                 nextTrackTime := none },
     eff1 ++ eff2 ++ [Effect.hrsDisable] ++ ps.2.1, none)

/-- The page field of register 2. -/
def pageOf (s : AppState) : ℕ :=
  get_shifted_int s.states IDX_STATE_2 PAGE_MASK PAGE_SHIFT

/-- `_try_stop_alarm` (src/sleep_tk.py lines 277-293).  On the stop branch
the source writes `self._WU_t = None` and then `del self._WU_t`, leaving
the attribute absent; the counter reset there addresses register 3 with
register 2's vibration mask, exactly as written. -/
def try_stop_alarm (now : ℤ) (nowH nowM : ℕ) (s : AppState) :
    AppState × List Effect × Option PyError :=
  let stop_trial := get_shifted_int s.states IDX_STATE_3 STOP_TRIAL_MASK STOP_TRIAL_SHIFT
  if STOP_LIMIT ≤ stop_trial + 1 then
    let s1 : AppState := { s with states := set_shifted_int s.states IDX_STATE_3 NUM_VIB_MASK NUM_VIB_SHIFT 0 }
    let st := stop_tracking now false s1
    match st.2.2 with
    | some e => (st.1, st.2.1, some e)
    | none =>
      let s2 : AppState := { st.1 with wuT := PyAttr.absent }
      let s3 := change_page nowH nowM s2 PAGE_SETTINGS1
      let fg := foreground_step nowH nowM s3
      (fg.1, st.2.1 ++ fg.2, none)
  else
    ({ s with states := set_shifted_int s.states IDX_STATE_3 STOP_TRIAL_MASK STOP_TRIAL_SHIFT (stop_trial + 1) },
     [], none)

/-- Iterated consecutive stop attempts at a fixed clock reading. -/
def tryStopIter : ℕ → AppState → AppState
  | 0, s => s
  | n + 1, s => (try_stop_alarm 999100 6 30 (tryStopIter n s)).1

/-- `_activate_ticks_to_ring` (src/sleep_tk.py lines 782-799).  Returns
unchanged immediately when `self._WU_t` is None.  Note two slips embedded
as written: the vibration-counter reset goes through the faulty setter
(wiping the page bits it has just set), and the brightness restore passes
`_PREV_BRIGHT_MASK` a second time where the shift belongs. -/
def activate_ticks_to_ring (now : ℤ) (nowH nowM : ℕ) (s : AppState) :
    AppState × List Effect × Option PyError :=
  match s.wuT with
  | PyAttr.absent => (s, [], some (PyError.attributeError "_WU_t"))
  | PyAttr.pyNone => (s, [], none)
  | PyAttr.val _ =>
    let s1 := change_page nowH nowM s PAGE_RINGING
    let s2 : AppState := { s1 with states := set_shifted_int s1.states IDX_STATE_2 NUM_VIB_MASK NUM_VIB_SHIFT 0 }
    let nl := get_shifted_int s2.states IDX_STATE_3 PREV_NOTE_MASK PREV_NOTE_SHIFT
    let br := get_shifted_int s2.states IDX_STATE_3 PREV_BRIGHT_MASK PREV_BRIGHT_MASK
    let screenOff := if 5 < |now - s.lastTouch| then [Effect.displayOff] else []
    (s2, [Effect.wake, Effect.switchApp, Effect.requestTick 1000,
          Effect.notifyLevel nl, Effect.brightness br] ++ screenOff, none)

/-- `_start_natural_wake` (src/sleep_tk.py lines 801-838).  `rand` is the
`random.random()` draw in `[0,1)`; the re-arm time is
`int(now + IVL + IVL * RAND / 100 * (rand - 0.5) * 2)` (nonnegative in any
run, where Python truncation and the floor below agree). -/
def start_natural_wake (now : ℤ) (nowH nowM : ℕ) (rand : ℚ) (s : AppState) :
    AppState × List Effect × Option PyError :=
  match s.wuT with
  | PyAttr.absent => (s, [], some (PyError.attributeError "_WU_t"))
  | PyAttr.pyNone => (s, [], none)
  | PyAttr.val _ =>
    let newWU : ℤ :=
      ⌊(now : ℚ) + NATURAL_WAKE_IVL + NATURAL_WAKE_IVL * NATURAL_WAKE_RAND / 100 * (rand - 1/2) * 2⌋
    let s1 := change_page nowH nowM { s with wuT := PyAttr.val newWU } PAGE_RINGING
    let nl := get_shifted_int s1.states IDX_STATE_3 PREV_NOTE_MASK PREV_NOTE_SHIFT
    let br := get_shifted_int s1.states IDX_STATE_3 PREV_BRIGHT_MASK PREV_BRIGHT_MASK
    let s2 : AppState := { s1 with states := set_shifted_int s1.states IDX_STATE_2 NUM_VIB_MASK NUM_VIB_SHIFT 0 }
    let screenOff := if 5 < |now - s.lastTouch| then [Effect.displayOff] else []
    let metaVal := get_shifted_int s2.states IDX_STATE_2 META_STATE_MASK META_STATE_SHIFT
    let states3 :=
      if metaVal = 1 then set_shifted_int s2.states IDX_STATE_2 META_STATE_MASK META_STATE_SHIFT 3
      else set_shifted_int s2.states IDX_STATE_2 META_STATE_MASK META_STATE_SHIFT 2
    let s3 : AppState := { s2 with states := states3 }
    let tail := if s.trackHROnce = 0 ∧ (60 : ℚ) ≤ NATURAL_WAKE_IVL then [Effect.sysSleep] else []
    (s3, [Effect.wake, Effect.switchApp, Effect.cancelAlarm Callback.startNaturalWake,
          Effect.setAlarm newWU Callback.startNaturalWake,
          Effect.notifyLevel nl, Effect.brightness br] ++ screenOff ++
         [Effect.pulse 3 50] ++ tail, none)

/-- `_tiny_vibration` (src/sleep_tk.py lines 901-920).  It does not check
`self._WU_t`; its only guard is skipping the pulse once the page is
already RINGING. -/
def tiny_vibration (now : ℤ) (s : AppState) : AppState × List Effect × Option PyError :=
  let screenOff := if 5 < |now - s.lastTouch| then [Effect.displayOff] else []
  let page := get_shifted_int s.states IDX_STATE_2 PAGE_MASK PAGE_SHIFT
  let pulseEff := if page ≠ PAGE_RINGING then [Effect.pulse 80 100] else []
  let metaVal := get_shifted_int s.states IDX_STATE_2 META_STATE_MASK META_STATE_SHIFT
  let states1 := if metaVal = 1 then set_shifted_int s.states IDX_STATE_2 META_STATE_MASK META_STATE_SHIFT 3
                 else set_shifted_int s.states IDX_STATE_2 META_STATE_MASK META_STATE_SHIFT 2
  let tail := if s.trackHROnce = 0 then [Effect.sysSleep] else []
  ({ s with states := states1 },
   screenOff ++ [Effect.wake, Effect.switchApp] ++ pulseEff ++ tail, none)

/-- The heart-rate estimate handling inside `tick` (src/sleep_tk.py lines
874-895), as a function of the estimate returned by the PPG black box and
the stored registers.  Returns the new `_IDX_LAST_HR`, the new
`_IDX_LAST_HR_PRINTED`, and the runtime error, if any: on an accepted
estimate the line after the store reads `elf._states[...]`, a NameError,
so the completion bookkeeping after it is unreachable. -/
def hr_estimate_update (bpmEstimate : Option ℤ) (lastHR lastHRPrinted : ℕ) :
    ℕ × ℕ × Option PyError :=
  match bpmEstimate with
  | none => (HEART_RATE_UNKNOWN, HEART_RATE_UNKNOWN, none)
  | some bpm =>
    if bpm < 100 ∧ 40 < bpm then
      ((if lastHR ≠ HEART_RATE_UNKNOWN then (lastHR + bpm.toNat) / 2 else bpm.toNat),
       lastHRPrinted, some (PyError.nameError "elf"))
    else (lastHR, lastHRPrinted, none)

/-- `tick` (src/sleep_tk.py lines 840-895).  `bpmEstimate` is what
`self._hrdata.get_heart_rate()` would return once ≥ 240 samples are in
(`none` both for a Python `None` return and when unused).  On the ringing
branch the pulse parameters read `self._n_vibration`, which no method of
the class ever assigns; the bytearray write of the incremented counter
raises ValueError if the faulty setter produces a byte ≥ 256. -/
def tick (now : ℤ) (bpmEstimate : Option ℤ) (s : AppState) :
    AppState × List Effect × Option PyError :=
  if get_shifted_int s.states IDX_STATE_2 PAGE_MASK PAGE_SHIFT = PAGE_RINGING ∧
      ¬get_bit_flag s.states IDX_STATE_1 NAT_WAKE_ENABLED then
    match s.nVibration with
    | none => (s, [Effect.switchApp, Effect.keepAwake], some (PyError.attributeError "_n_vibration"))
    | some nv =>
      let eff := [Effect.switchApp, Effect.keepAwake,
                  Effect.pulse (max (80 - nv) 20) (min (100 + 6 * nv) 500)]
      let cnt := get_shifted_int s.states IDX_STATE_2 NUM_VIB_MASK NUM_VIB_SHIFT
      let newByte := set_shifted_int_byte (s.states.getD IDX_STATE_2 0) NUM_VIB_MASK NUM_VIB_SHIFT (cnt + 1)
      if newByte < 256 then ({ s with states := s.states.set IDX_STATE_2 newByte }, eff, none)
      else (s, eff, some PyError.valueError)
  else if s.trackHROnce ≠ 0 then
    let screenOff := if 5 < |now - s.lastTouch| then [Effect.displayOff] else []
    let hrLen := (match s.hrdataLen with | none => 0 | some l => l) + 3
    let effHR := [Effect.switchApp, Effect.hrsEnable, Effect.keepAwake] ++ screenOff ++
                 [Effect.hrsRead, Effect.keepAwake, Effect.hrsRead, Effect.keepAwake,
                  Effect.hrsRead, Effect.keepAwake]
    if 240 ≤ hrLen then
      let hu := hr_estimate_update bpmEstimate (s.states.getD IDX_LAST_HR 0)
                  (s.states.getD IDX_LAST_HR_PRINTED 0)
      let states1 := (s.states.set IDX_LAST_HR hu.1).set IDX_LAST_HR_PRINTED hu.2.1
      let hrdata1 := match bpmEstimate with
                     | none => none
                     | some _ => some hrLen
      ({ s with states := states1, hrdataLen := hrdata1 }, effHR, hu.2.2)
    else ({ s with hrdataLen := some hrLen }, effHR, none)
  else (s, [Effect.switchApp], none)

/-- `_trackOnce` (src/sleep_tk.py lines 670-716).  `xyz1` is the reading of
`accel_xyz()`; `xyz2` the re-read used if the first one is the degenerate
all-zero triple.  The simulator escape hatch around the battery check is
taken as on real hardware. -/
def trackOnce (now : ℤ) (xyz1 xyz2 : ℚ × ℚ × ℚ) (batteryLevel : ℤ) (s : AppState) :
    AppState × List Effect × Option PyError :=
  if get_bit_flag s.states IDX_STATE_1 CURRENTLY_TRACKING then
    match s.buff, s.accelMemory, s.dataPointNb with
    | some b, some mem, some dpn =>
      let rd := if xyz1 = ((0 : ℚ), (0 : ℚ), (0 : ℚ))
                then (xyz2, [Effect.accelRead, Effect.accelReset, Effect.accelRead])
                else (xyz1, [Effect.accelRead])
      let xyz := rd.1
      let b1 := (b.1 + (|mem.1| - |xyz.1|), b.2.1 + (|mem.2.1| - |xyz.2.1|),
                 b.2.2 + (|mem.2.2| - |xyz.2.2|))
      let s1 : AppState := { s with buff := some b1, accelMemory := some xyz,
                                    dataPointNb := some (dpn + 1),
                                    nextTrackTime := some (now + (FREQ : ℤ)) }
      let effAl := [Effect.setAlarm (now + (FREQ : ℤ)) Callback.trackOnce]
      let ps := periodicSave now s1
      match ps.2.2 with
      | some e => (ps.1, rd.2 ++ effAl ++ ps.2.1, some e)
      | none =>
        if batteryLevel ≤ BATTERY_THRESHOLD then
          let st := stop_tracking now true ps.1
          (st.1, rd.2 ++ effAl ++ ps.2.1 ++ [Effect.batteryRead] ++ st.2.1 ++
                 [Effect.notifyLowBattery], st.2.2)
        else if get_bit_flag ps.1.states IDX_STATE_1 HR_ENABLED ∧
                now - ps.1.lastHRDate > HR_FREQ ∧ ps.1.trackHROnce = 0 then
          let screenOff := if 5 < |now - ps.1.lastTouch| then [Effect.displayOff] else []
          ({ ps.1 with trackHROnce := now },
           rd.2 ++ effAl ++ ps.2.1 ++ [Effect.batteryRead, Effect.wake] ++ screenOff ++
           [Effect.switchApp, Effect.requestTick 125], none)
        else (ps.1, rd.2 ++ effAl ++ ps.2.1 ++ [Effect.batteryRead], none)
    | _, _, _ => (s, [Effect.accelRead], some PyError.typeError)
  else (s, [], none)

/-- A live tracking session ringing: register 1 has alarm, movement,
heart-rate and currently-tracking set (natural wake off), register 2 has
page = RINGING with clear meta/vibration fields, register 3 clear, and an
empty accumulator (no samples since the last checkpoint). -/
def ringingState : AppState :=
  { states := [0x27, 0x01, 0x00, 8, 0, 1, 1]
    wuT := PyAttr.val 999000
    wuTOrig := 999000
    nVibration := none
    buff := some (0, 0, 0)
    accelMemory := some (0, 0, 16)
    dataPointNb := some 0
    latestSave := some (-1)
    lastCheckpoint := some 0
    trackStartTime := some 990000
    nextTrackTime := some 990002
    trackHROnce := 0
    lastHRDate := 0
    lastTouch := 999000
    hrdataLen := none }

/-- A live tracking session on the SLEEPING page just before the terminal
ring fires: register 1 additionally has gradual wake set, register 3 holds
a previous brightness of 1. -/
def sleepingState : AppState :=
  { states := [0x2F, 0x00, 0x10, 8, 0, 1, 1]
    wuT := PyAttr.val 999100
    wuTOrig := 999100
    nVibration := none
    buff := some (0, 0, 0)
    accelMemory := some (0, 0, 16)
    dataPointNb := some 0
    latestSave := some (-1)
    lastCheckpoint := some 0
    trackStartTime := some 990000
    nextTrackTime := some 990002
    trackHROnce := 0
    lastHRDate := 0
    lastTouch := 999099
    hrdataLen := none }

/-- A torn-down session: the wake target is Python `None`, page SLEEPING,
meta-state clear, session buffers cleared, tracking flag off. -/
def clearedState : AppState :=
  { states := [0x0F, 0x00, 0x00, 8, 0, 1, 1]
    wuT := PyAttr.pyNone
    wuTOrig := 999000
    nVibration := none
    buff := none
    accelMemory := none
    dataPointNb := none
    latestSave := none
    lastCheckpoint := none
    trackStartTime := none
    nextTrackTime := none
    trackHROnce := 0
    lastHRDate := 0
    lastTouch := 999000
    hrdataLen := none }

/-- A flush-ready session: 60 samples accumulated since the last
checkpoint, session started at 990000, previously saved multiple 1,
no pending heart-rate value. -/
def flushState : AppState :=
  { states := [0x27, 0x00, 0x00, 8, 0, 0, 1]
    wuT := PyAttr.val 999000
    wuTOrig := 999000
    nVibration := none
    buff := some (2, 3, 4)
    accelMemory := some (0, 0, 16)
    dataPointNb := some 60
    latestSave := some 1
    lastCheckpoint := some 0
    trackStartTime := some 990000
    nextTrackTime := some 990002
    trackHROnce := 0
    lastHRDate := 0
    lastTouch := 990000
    hrdataLen := none }

end SleepTk

namespace SleepTkLegacy

-- Constants of src/SleepTk.py (lines 28-33).
def BATTERY_THRESHOLD : ℤ := 20
def AVG_SLEEP_CYCL : ℕ := 32400
def OFFSETS : List ℕ := [0, 300, 600, 900, 1200, 1500, 1800]
def FREQ : ℕ := 5
def STORE_FREQ : ℕ := 300
def ANTICIP_LEN : ℕ := 1800

/-- The attributes of the legacy `SleepTkApp` (src/SleepTk.py) that the
verified paths touch.  The raw accelerometer buffer `_buff` is a flat
x,y,z,x,y,z,... list. -/
structure State where
  tracking : Bool
  buff : List ℚ
  dataPointNb : ℤ
  lastCheckpoint : ℤ
  offset : ℤ
  nextAl : ℤ
  wakeupEnabled : Bool
  wakeupAntEnabled : Bool
  wuT : ℤ
  wuA : ℤ
deriving DecidableEq, Repr

/-- External side effects of the legacy paths. -/
inductive Effect
  | accelRead
  | setAlarm (t : ℤ)
  | cancelAlarm (t : ℤ)
  | batteryRead
  | fileWrite (timestamp : ℤ) (xAvg yAvg zAvg : ℚ) (batteryMv : ℤ)
deriving DecidableEq, Repr

/-- The elements `l[start], l[start+3], l[start+6], ...`, i.e. Python's
`[l[i] for i in range(start, len(l), 3)]`. -/
def stride3 (l : List ℚ) (start : ℕ) : List ℚ :=
  ((List.range l.length).filter fun i => start ≤ i ∧ (i - start) % 3 = 0).map fun i => l.getD i 0

/-- The angle written in the legacy row (src/SleepTk.py line 204):
`degrees(atan(z_avg / (x_avg**2 + y_avg**2 + 1e-7)))`. -/
noncomputable def angle (xAvg yAvg zAvg : ℚ) : ℝ :=
  Real.arctan ((zAvg : ℝ) / ((xAvg : ℝ) ^ 2 + (yAvg : ℝ) ^ 2 + 0.0000001)) * 180 / Real.pi

/-- Legacy `_periodicSave` (src/SleepTk.py lines 192-213).  The written
row is `(timestamp, x_avg, y_avg, z_avg, angle x y z, battery_mv)`; the
`fileWrite` effect records everything but the transcendental angle, which
is `angle` of the recorded averages. -/
def periodicSave (now batteryMv : ℤ) (s : State) : State × List Effect :=
  if s.dataPointNb - s.lastCheckpoint ≥ ((STORE_FREQ / FREQ : ℕ) : ℤ) then
    let n : ℚ := ((s.dataPointNb - s.lastCheckpoint : ℤ) : ℚ)
    let xAvg := (stride3 s.buff 0).sum / n
    let yAvg := (stride3 s.buff 1).sum / n
    let zAvg := (stride3 s.buff 2).sum / n
    ({ s with lastCheckpoint := s.dataPointNb, buff := [] },
     [Effect.fileWrite (now - s.offset) xAvg yAvg zAvg batteryMv])
  else (s, [])

/-- Legacy `_add_accel_alar` (src/SleepTk.py lines 174-178). -/
def addAccelAlar (now : ℤ) (s : State) : State × List Effect :=
  ({ s with nextAl := now + (FREQ : ℤ) }, [Effect.setAlarm (now + (FREQ : ℤ))])

/-- Legacy `_disable_tracking` (src/SleepTk.py lines 161-172). -/
def disableTracking (now batteryMv : ℤ) (keepAlarm : Bool) (s : State) : State × List Effect :=
  let s1 : State := { s with tracking := false }
  let eff1 := [Effect.cancelAlarm s1.nextAl]
  let eff2 :=
    if s1.wakeupEnabled then
      (if keepAlarm then [] else [Effect.cancelAlarm s1.wuT]) ++
      (if s1.wakeupAntEnabled then [Effect.cancelAlarm s1.wuA] else [])
    else []
  let ps := periodicSave now batteryMv s1
  (ps.1, eff1 ++ eff2 ++ ps.2)

/-- Legacy `_trackOnce` (src/SleepTk.py lines 180-190). -/
def trackOnce (now batteryMv : ℤ) (xyz : ℚ × ℚ × ℚ) (batteryLevel : ℤ) (s : State) :
    State × List Effect :=
  if s.tracking then
    let s1 : State := { s with buff := s.buff ++ [xyz.1, xyz.2.1, xyz.2.2],
                               dataPointNb := s.dataPointNb + 1 }
    let aa := addAccelAlar now s1
    let ps := periodicSave now batteryMv aa.1
    if batteryLevel ≤ BATTERY_THRESHOLD then
      let dt := disableTracking now batteryMv true ps.1
      (dt.1, [Effect.accelRead] ++ aa.2 ++ ps.2 ++ [Effect.batteryRead] ++ dt.2)
    else (ps.1, [Effect.accelRead] ++ aa.2 ++ ps.2 ++ [Effect.batteryRead])
  else (s, [])

/-- The angular frequency of the fitted sine in `_compute_best_WU`
(src/SleepTk.py line 294): `omega = 2 * pi / _AVG_SLEEP_CYCL`. -/
noncomputable def omega : ℝ := 2 * Real.pi / (AVG_SLEEP_CYCL : ℝ)

/-- The least-squares-like score computed for one phase offset in
`_compute_best_WU` (src/SleepTk.py lines 295-299) over the normalized
series `data` (indexed by flush count `t`, spaced `STORE_FREQ` seconds). -/
noncomputable def fitScore (data : List ℝ) (offset : ℕ) : ℝ :=
  (((List.range data.length).map fun (t : ℕ) =>
      Real.sin (omega * (t : ℝ) * (STORE_FREQ : ℝ) + (offset : ℝ)) * data.getD t 0).sum) -
  (((List.range data.length).map fun (t : ℕ) =>
      (Real.sin (omega * (t : ℝ) * (STORE_FREQ : ℝ) + (offset : ℝ)) - data.getD t 0) ^ 2).sum)

/-- A legacy-app state with an empty accumulator window and tracking
stopped. -/
def idleState : State :=
  { tracking := false
    buff := []
    dataPointNb := 0
    lastCheckpoint := 0
    offset := 0
    nextAl := 5
    wakeupEnabled := true
    wakeupAntEnabled := true
    wuT := 100
    wuA := 50 }

end SleepTkLegacy

namespace SleepTk

theorem getD_set_self (l : List ℕ) (i v : ℕ) (h : i < l.length) :
    (l.set i v).getD i 0 = v := by
  induction l generalizing i with
  | nil => simp at h
  | cons a t ih =>
    cases i with
    | zero => rfl
    | succ j =>
      simp only [List.set_cons_succ, List.getD_cons_succ]
      exact ih j (by simpa using h)

theorem getD_set_ne (l : List ℕ) (i j v : ℕ) (hne : i ≠ j) :
    (l.set i v).getD j 0 = l.getD j 0 := by
  induction l generalizing i j with
  | nil => simp
  | cons a t ih =>
    cases i with
    | zero =>
      cases j with
      | zero => exact absurd rfl hne
      | succ m => rfl
    | succ n =>
      cases j with
      | zero => rfl
      | succ m =>
        simp only [List.set_cons_succ, List.getD_cons_succ]
        exact ih n m (fun h => hne (by rw [h]))

set_option maxRecDepth 100000 in
theorem set_bit_flag_byte_spec :
    ∀ r < 256, ∀ k < 8, ∀ b : Bool,
      get_bit_flag_byte (set_bit_flag_byte r (2 ^ k) b) (2 ^ k) = b ∧
      (∀ j < 8, j ≠ k →
        (set_bit_flag_byte r (2 ^ k) b).testBit j = r.testBit j) ∧
      set_bit_flag_byte (set_bit_flag_byte r (2 ^ k) b) (2 ^ k) b =
        set_bit_flag_byte r (2 ^ k) b := by decide

/-- Claim C9: for every valid register index, every single-bit mask `2^k`,
and every boolean, `_set_bit_flag` followed by `_get_bit_flag` on the same
flag returns that boolean, every bit of the 8-bit register other than bit
`k` is unchanged, and `_set_bit_flag` is idempotent. -/
theorem bit_flag_set_get_roundtrip (states : List ℕ) (idx k : ℕ) (b : Bool)
    (hidx : idx < states.length) (hk : k < 8) (hr : states.getD idx 0 < 256) :
    get_bit_flag (set_bit_flag states idx (2 ^ k) b) idx (2 ^ k) = b ∧
    (∀ j < 8, j ≠ k →
      ((set_bit_flag states idx (2 ^ k) b).getD idx 0).testBit j =
        (states.getD idx 0).testBit j) ∧
    set_bit_flag (set_bit_flag states idx (2 ^ k) b) idx (2 ^ k) b =
      set_bit_flag states idx (2 ^ k) b := by
  have hspec := set_bit_flag_byte_spec (states.getD idx 0) hr k hk b
  have hset : (set_bit_flag states idx (2 ^ k) b).getD idx 0 =
      set_bit_flag_byte (states.getD idx 0) (2 ^ k) b :=
    getD_set_self states idx _ hidx
  refine ⟨?_, ?_, ?_⟩
  · unfold get_bit_flag
    rw [hset]
    exact hspec.1
  · intro j hj hjk
    rw [hset]
    exact hspec.2.1 j hj hjk
  · have h2 : (set_bit_flag states idx (2 ^ k) b).getD idx 0 =
        set_bit_flag_byte (states.getD idx 0) (2 ^ k) b := hset
    unfold set_bit_flag at h2 ⊢
    rw [h2, hspec.2.2, List.set_set]

/-- Witness for `bit_flag_set_get_roundtrip` at a concrete input: register
index 0 of a fresh all-zero 7-byte state, flag bit 5 (`_CURRENTLY_TRACKING`),
value `true`. -/
theorem bit_flag_set_get_roundtrip_witness :
    get_bit_flag (set_bit_flag [0, 0, 0, 0, 0, 0, 0] 0 (2 ^ 5) true) 0 (2 ^ 5) = true ∧
    (∀ j < 8, j ≠ 5 →
      ((set_bit_flag [0, 0, 0, 0, 0, 0, 0] 0 (2 ^ 5) true).getD 0 0).testBit j =
        (([0, 0, 0, 0, 0, 0, 0] : List ℕ).getD 0 0).testBit j) ∧
    set_bit_flag (set_bit_flag [0, 0, 0, 0, 0, 0, 0] 0 (2 ^ 5) true) 0 (2 ^ 5) true =
      set_bit_flag [0, 0, 0, 0, 0, 0, 0] 0 (2 ^ 5) true :=
  bit_flag_set_get_roundtrip [0, 0, 0, 0, 0, 0, 0] 0 5 true
    (by decide) (by decide) (by decide)

/-- Claim C1 (refuted; the code is the bug): `_set_shifted_int` computes
`(reg & mask) | (value << shift)` instead of clearing the bits under the
mask, so the setter/getter round-trip fails and the bits outside the mask
are wiped.  Here register byte `0xFF`, field mask `0x03`, shift 0, in-range
value 2: the getter afterwards returns 3 (old field bits OR new value), not
2, and the outside bits drop from `0xFC` to 0. -/
theorem set_get_shifted_int_violation :
    get_shifted_int (set_shifted_int [0xFF, 0, 0, 0, 0, 0, 0] 0 0x03 0 2) 0 0x03 0 = 3 ∧
    get_shifted_int (set_shifted_int [0xFF, 0, 0, 0, 0, 0, 0] 0 0x03 0 2) 0 0x03 0 ≠ 2 ∧
    (set_shifted_int [0xFF, 0, 0, 0, 0, 0, 0] 0 0x03 0 2).getD 0 0 &&& 0xFC = 0 ∧
    (([0xFF, 0, 0, 0, 0, 0, 0] : List ℕ).getD 0 0) &&& 0xFC = 0xFC := by decide

/-- Claim C2 (refuted; the code is the bug): because `_set_shifted_int`
ORs the new counter into the old one, the stop-trial counter runs
0, 1, 3, 7, 15, so the FIFTH consecutive stop attempt already stops
tracking - not the tenth - and nine attempts do not leave the page at
RINGING; moreover the faulty page setter lands on SETTINGS2 (page bits
1 OR 2 = 3), not SETTINGS1. -/
theorem stop_counter_diverges :
    pageOf (tryStopIter 4 ringingState) = PAGE_RINGING ∧
    get_shifted_int (tryStopIter 4 ringingState).states IDX_STATE_3 STOP_TRIAL_MASK STOP_TRIAL_SHIFT = 15 ∧
    pageOf (tryStopIter 5 ringingState) = PAGE_SETTINGS2 ∧
    pageOf (tryStopIter 5 ringingState) ≠ PAGE_SETTINGS1 ∧
    get_bit_flag (tryStopIter 5 ringingState).states IDX_STATE_1 CURRENTLY_TRACKING = false ∧
    pageOf (tryStopIter 9 ringingState) ≠ PAGE_RINGING := by decide

/-- Claim C4 (refuted; the code is the bug): after `_activate_ticks_to_ring`
the vibration-counter reset through the faulty setter wipes the page bits,
so the state machine is on SLEEPING, the escalating-vibration branch of
`tick` is unreachable and a tick issues no pulse at all; and even with the
page forced to RINGING, the pulse parameters read `self._n_vibration`,
which no method of the class ever assigns: AttributeError. -/
theorem ring_tick_diverges :
    pageOf (activate_ticks_to_ring 999100 6 30 sleepingState).1 = PAGE_SLEEPING ∧
    pageOf (activate_ticks_to_ring 999100 6 30 sleepingState).1 ≠ PAGE_RINGING ∧
    tick 999101 none (activate_ticks_to_ring 999100 6 30 sleepingState).1 =
      ((activate_ticks_to_ring 999100 6 30 sleepingState).1, [Effect.switchApp], none) ∧
    (tick 999101 none ringingState).2.2 = some (PyError.attributeError "_n_vibration") ∧
    (tick 999101 none ringingState).2.1 = [Effect.switchApp, Effect.keepAwake] := by decide

/-- Claim C5 counterexample: with the wake target already cleared
(`_WU_t = None`), `_tiny_vibration` still vibrates (the page is not
RINGING), wakes the device and mutates the meta-state field - it performs
actions instead of no-oping. -/
theorem tiny_vibration_ignores_sentinel :
    clearedState.wuT = PyAttr.pyNone ∧
    Effect.pulse 80 100 ∈ (tiny_vibration 999100 clearedState).2.1 ∧
    (tiny_vibration 999100 clearedState).1 ≠ clearedState := by decide

/-- Claim C5 (amended): the terminal ring activation and the natural-wake
re-arm check the cleared-wake-target sentinel first and perform no action
at all when the session was torn down, but the gradual pre-wake vibration
callback does not check the sentinel and still acts. -/
theorem wake_callbacks_sentinel (now : ℤ) (nowH nowM : ℕ) (rand : ℚ) (s : AppState)
    (h : s.wuT = PyAttr.pyNone) :
    activate_ticks_to_ring now nowH nowM s = (s, [], none) ∧
    start_natural_wake now nowH nowM rand s = (s, [], none) ∧
    Effect.pulse 80 100 ∈ (tiny_vibration 999100 clearedState).2.1 := by
  refine ⟨?_, ?_, by decide⟩
  · unfold activate_ticks_to_ring
    rw [h]
  · unfold start_natural_wake
    rw [h]

/-- Witness for `wake_callbacks_sentinel` at the concrete torn-down
state. -/
theorem wake_callbacks_sentinel_witness :
    activate_ticks_to_ring 0 0 0 clearedState = (clearedState, [], none) ∧
    start_natural_wake 0 0 0 0 clearedState = (clearedState, [], none) ∧
    Effect.pulse 80 100 ∈ (tiny_vibration 999100 clearedState).2.1 :=
  wake_callbacks_sentinel 0 0 0 0 clearedState rfl

/-- Claim C6 counterexample: an out-of-range estimate (150) does not mark
the stored BPM with the unknown sentinel - stored 60 stays 60; and with
the consumed marker 0 stored, an accepted estimate 70 is averaged with 0
to 35 instead of being stored directly. -/
theorem hr_validation_counterexample :
    hr_estimate_update (some 150) 60 60 = (60, 60, none) ∧
    (hr_estimate_update (some 150) 60 60).1 ≠ HEART_RATE_UNKNOWN ∧
    (hr_estimate_update (some 70) 0 1).1 = 35 ∧
    (hr_estimate_update (some 70) 0 1).1 ≠ 70 := by decide

/-- Claim C6 (amended): an estimate is accepted iff `40 < bpm < 100`.  On
acceptance, if the stored BPM differs from the unknown sentinel (which
includes the consumed marker 0) it becomes the integer average of old and
new, otherwise the new value is stored directly; the acceptance path then
stops in the `elf` NameError before marking the extraction complete.  A
`None` estimate stores the unknown sentinel (and extraction is retried).
An out-of-range estimate leaves the stored BPM entirely unchanged - it is
never overwritten with the invalid value - and the attempt stays armed. -/
theorem hr_validation_amended (lastHR printed : ℕ) (bpm : ℤ) :
    hr_estimate_update none lastHR printed = (HEART_RATE_UNKNOWN, HEART_RATE_UNKNOWN, none) ∧
    (40 < bpm ∧ bpm < 100 →
      (lastHR ≠ HEART_RATE_UNKNOWN →
        hr_estimate_update (some bpm) lastHR printed =
          ((lastHR + bpm.toNat) / 2, printed, some (PyError.nameError "elf"))) ∧
      (lastHR = HEART_RATE_UNKNOWN →
        hr_estimate_update (some bpm) lastHR printed =
          (bpm.toNat, printed, some (PyError.nameError "elf")))) ∧
    (¬(40 < bpm ∧ bpm < 100) →
      hr_estimate_update (some bpm) lastHR printed = (lastHR, printed, none)) := by
  refine ⟨rfl, fun hin => ⟨fun hne => ?_, fun heq => ?_⟩, fun hout => ?_⟩
  · simp [hr_estimate_update, hin.1, hin.2, hne]
  · simp [hr_estimate_update, hin.1, hin.2, heq]
  · have : ¬(bpm < 100 ∧ 40 < bpm) := fun hc => hout ⟨hc.2, hc.1⟩
    simp [hr_estimate_update, this]

/-- Witness for `hr_validation_amended`: stored 60 averaged with accepted
70 gives 65; accepted 70 over the unknown sentinel is stored directly. -/
theorem hr_validation_amended_witness :
    hr_estimate_update (some 70) 60 60 = (65, 60, some (PyError.nameError "elf")) ∧
    hr_estimate_update (some 70) 1 1 = (70, 1, some (PyError.nameError "elf")) :=
  ⟨((hr_validation_amended 60 60 70).2.1 (by decide)).1 (by decide),
   ((hr_validation_amended 1 1 70).2.1 (by decide)).2 rfl⟩

/-- Claim C7 counterexample: the flush happening 360 seconds into the
session (previous saved multiple 1) appends a record whose first field is
3 - the number of whole 120-second store intervals - not the number of
seconds 360 the claim states. -/
theorem log_timestamp_counterexample :
    (periodicSave 990360 flushState).2.1 =
      [Effect.fileAppend
        { timestamp := some 3, motionBuff := (2, 3, 4), nSamples := 60,
          bpm := CsvField.empty, meta := CsvField.empty },
       Effect.accelReset] ∧
    (3 : ℤ) ≠ 360 := by decide

/-- Claim C7 (amended): the first comma-separated field of a flushed
record is the number of whole store intervals (elapsed seconds divided by
`STORE_FREQ` = 120, truncated) since session start, and it is omitted
exactly when it is one more than the previously written multiple - so a
reader replaying the file can always reconstruct the multiple from the
field and the previous one. -/
theorem log_timestamp_field (now start latest : ℤ) :
    ((timestamp_field now start latest).1 = none ↔
      Int.tdiv (now - start) (STORE_FREQ : ℤ) = latest + 1) ∧
    ((match (timestamp_field now start latest).1 with
      | none => latest + 1
      | some v => v) = Int.tdiv (now - start) (STORE_FREQ : ℤ)) ∧
    (timestamp_field now start latest).2 = Int.tdiv (now - start) (STORE_FREQ : ℤ) := by
  by_cases h : Int.tdiv (now - start) (STORE_FREQ : ℤ) = latest + 1 <;>
    simp [timestamp_field, h]

/-- Witness for `log_timestamp_field` at the counterexample's input: 360
elapsed seconds, previous multiple 1. -/
theorem log_timestamp_field_witness :
    ((timestamp_field 990360 990000 1).1 = none ↔
      Int.tdiv (990360 - 990000) (STORE_FREQ : ℤ) = 1 + 1) ∧
    ((match (timestamp_field 990360 990000 1).1 with
      | none => (1 : ℤ) + 1
      | some v => v) = Int.tdiv (990360 - 990000) (STORE_FREQ : ℤ)) ∧
    (timestamp_field 990360 990000 1).2 = Int.tdiv (990360 - 990000) (STORE_FREQ : ℤ) :=
  log_timestamp_field 990360 990000 1

/-- Claim C8: flushing with an empty accumulator (no samples since the
last checkpoint) divides by nothing in either implementation: the store
path is short-circuited, the motion accumulator, counters, checkpoint and
saved-multiple are unchanged and nothing is appended; and whenever the
bit-packed store path does append a record, its sample count (the divisor
of the conversion factor) is at least `STORE_FREQ / FREQ` = 60, never
zero. -/
theorem periodic_save_empty_guard (now : ℤ) (s : AppState) (d l0 t0 : ℤ) (b : ℚ × ℚ × ℚ)
    (hb : s.buff = some b) (hd : s.dataPointNb = some d) (hc : s.lastCheckpoint = some d)
    (ht : s.trackStartTime = some t0) (hl : s.latestSave = some l0)
    (nowL mvL : ℤ) (tL : SleepTkLegacy.State) (hL : tL.dataPointNb = tL.lastCheckpoint) :
    ((periodicSave now s).1.buff = s.buff ∧
     (periodicSave now s).1.dataPointNb = s.dataPointNb ∧
     (periodicSave now s).1.lastCheckpoint = s.lastCheckpoint ∧
     (periodicSave now s).1.latestSave = s.latestSave ∧
     (periodicSave now s).1.states = s.states ∧
     (periodicSave now s).2.1 = [] ∧
     (periodicSave now s).2.2 = none) ∧
    SleepTkLegacy.periodicSave nowL mvL tL = (tL, []) ∧
    (∀ now2 (s2 : AppState) b2 (d2 c2 t2 l2 : ℤ) row,
      s2.buff = some b2 → s2.dataPointNb = some d2 → s2.lastCheckpoint = some c2 →
      s2.trackStartTime = some t2 → s2.latestSave = some l2 →
      Effect.fileAppend row ∈ (periodicSave now2 s2).2.1 → 60 ≤ row.nSamples) := by
  refine ⟨?_, ?_, ?_⟩
  · have hn : ¬(d - d ≥ ((STORE_FREQ / FREQ : ℕ) : ℤ) ∧
        (if now - s.trackHROnce > 60 then 0 else s.trackHROnce) = 0) := by
      intro hcon
      have h1 := hcon.1
      rw [sub_self] at h1
      exact absurd h1 (by decide)
    unfold periodicSave
    rw [hb, hd, hc, ht, hl]
    simp only [hn, if_false]
    simp
  · have h0 : tL.dataPointNb - tL.lastCheckpoint = 0 := by rw [hL]; ring
    have hn : ¬(tL.dataPointNb - tL.lastCheckpoint ≥
        ((SleepTkLegacy.STORE_FREQ / SleepTkLegacy.FREQ : ℕ) : ℤ)) := by
      rw [h0]
      decide
    unfold SleepTkLegacy.periodicSave
    simp only [hn, if_false]
  · intro now2 s2 b2 d2 c2 t2 l2 row hb2 hd2 hc2 ht2 hl2 hmem
    unfold periodicSave at hmem
    rw [hb2, hd2, hc2, ht2, hl2] at hmem
    by_cases hcond : (d2 - c2 ≥ ((STORE_FREQ / FREQ : ℕ) : ℤ) ∧
        (if now2 - s2.trackHROnce > 60 then 0 else s2.trackHROnce) = 0)
    · have h60 : (60 : ℤ) ≤ d2 - c2 := by
        have h1 := hcond.1
        have h2 : ((STORE_FREQ / FREQ : ℕ) : ℤ) = 60 := by decide
        rw [h2] at h1
        exact h1
      simp only [hcond, if_true] at hmem
      simp at hmem
      try subst hmem
      try rw [hmem]
      show (60 : ℕ) ≤ (d2 - c2).toNat
      omega
    · simp only [hcond, if_false] at hmem
      exact absurd hmem (List.not_mem_nil _)

/-- Witness for `periodic_save_empty_guard`: the ringing session state and
the idle legacy state, both with an empty accumulator window. -/
theorem periodic_save_empty_guard_witness :
    ((periodicSave 999100 ringingState).1.buff = ringingState.buff ∧
     (periodicSave 999100 ringingState).1.dataPointNb = ringingState.dataPointNb ∧
     (periodicSave 999100 ringingState).1.lastCheckpoint = ringingState.lastCheckpoint ∧
     (periodicSave 999100 ringingState).1.latestSave = ringingState.latestSave ∧
     (periodicSave 999100 ringingState).1.states = ringingState.states ∧
     (periodicSave 999100 ringingState).2.1 = [] ∧
     (periodicSave 999100 ringingState).2.2 = none) ∧
    SleepTkLegacy.periodicSave 500 3700 SleepTkLegacy.idleState = (SleepTkLegacy.idleState, []) :=
  ⟨(periodic_save_empty_guard 999100 ringingState 0 (-1) 990000 (0, 0, 0)
      rfl rfl rfl rfl rfl 500 3700 SleepTkLegacy.idleState rfl).1,
   (periodic_save_empty_guard 999100 ringingState 0 (-1) 990000 (0, 0, 0)
      rfl rfl rfl rfl rfl 500 3700 SleepTkLegacy.idleState rfl).2.1⟩

/-- Claim C10: when the currently-tracking flag is clear, `_trackOnce`
returns immediately in both implementations - no accelerometer read, no
log append, no new alarm, no state change - so a stale tracking alarm
firing after tracking stopped is a no-op. -/
theorem track_once_stale_noop (now : ℤ) (xyz1 xyz2 : ℚ × ℚ × ℚ) (battery : ℤ) (s : AppState)
    (h : get_bit_flag s.states IDX_STATE_1 CURRENTLY_TRACKING = false)
    (nowL mvL : ℤ) (xyzL : ℚ × ℚ × ℚ) (batL : ℤ) (tL : SleepTkLegacy.State)
    (hL : tL.tracking = false) :
    trackOnce now xyz1 xyz2 battery s = (s, [], none) ∧
    SleepTkLegacy.trackOnce nowL mvL xyzL batL tL = (tL, []) := by
  constructor
  · simp [trackOnce, h]
  · simp [SleepTkLegacy.trackOnce, hL]

/-- Witness for `track_once_stale_noop`: the torn-down bit-packed state
and the idle legacy state. -/
theorem track_once_stale_noop_witness :
    trackOnce 999200 (0, 0, 16) (0, 0, 16) 80 clearedState = (clearedState, [], none) ∧
    SleepTkLegacy.trackOnce 500 3700 (0, 0, 16) 80 SleepTkLegacy.idleState =
      (SleepTkLegacy.idleState, []) :=
  track_once_stale_noop 999200 (0, 0, 16) (0, 0, 16) 80 clearedState (by decide)
    500 3700 (0, 0, 16) 80 SleepTkLegacy.idleState rfl

end SleepTk

namespace SleepTkLegacy

/-- Claim C3 (refuted; the code is the bug): `_AVG_SLEEP_CYCL` is 32400
seconds although its own comment (and the spec) call it 90 minutes, so the
sine fitted by `_compute_best_WU` has a 9-hour period: its angular
frequency `omega = 2*pi/_AVG_SLEEP_CYCL` is not `2*pi/5400`, the frequency
of a 90-minute sleep cycle the claim states. -/
theorem avg_sleep_cycle_period_bug :
    AVG_SLEEP_CYCL = 32400 ∧ AVG_SLEEP_CYCL ≠ 90 * 60 ∧
    omega ≠ 2 * Real.pi / (90 * 60 : ℝ) := by
  refine ⟨rfl, by norm_num [AVG_SLEEP_CYCL], ?_⟩
  unfold omega AVG_SLEEP_CYCL
  intro h
  have hpi : Real.pi ≠ 0 := Real.pi_ne_zero
  rw [div_eq_div_iff (by norm_num) (by norm_num)] at h
  have h2 : (2 : ℝ) * Real.pi ≠ 0 := by positivity
  have h3 := mul_left_cancel₀ h2 h
  norm_num at h3

end SleepTkLegacy
